import Mathlib

/-!
Verification of the chunked transcription pipeline of the
audio_video_transcriber repository, shallowly embedded in Lean 4.

Conventions used throughout:
* Python floats are modelled as rationals (`ℚ`); the uniform-bitrate chunk
  math of the source is exact rational arithmetic here.
* A raised Python exception is modelled as the `Except.error` branch of a
  result, carrying the exception message.
* External effects (the ffprobe probe, the per-attempt remote transcription
  call, filesystem removal) are passed in as explicit arguments, so every
  function of the embedding is executable on concrete inputs.
* `time.sleep(d)` calls are recorded as a list of the requested delays, in
  order, so that attempt/sleep counting claims are statable.
-/

/- ========================================================================
   media_utils.py — chunk planning (`split_media`, lines 150-187)
   ======================================================================== -/

/-- One planned chunk window emitted by the loop of `split_media`
(media_utils.py lines 163-184): the 0-based loop index `i`, the `-ss` start
offset `i * chunk_duration`, and the `-t` duration `chunk_duration`, all in
seconds. -/
structure ChunkWindow where
  index : Nat
  start : ℚ
  duration : ℚ
deriving Repr, DecidableEq

/-- Decidable equality for `Except`, so that outcomes of the embedded
functions can be compared on concrete inputs by `decide`. -/
instance {ε α : Type} [DecidableEq ε] [DecidableEq α] : DecidableEq (Except ε α) :=
  fun x y =>
    match x, y with
    | .ok a, .ok b =>
      if h : a = b then .isTrue (h ▸ rfl) else .isFalse (fun hh => h (Except.ok.inj hh))
    | .error a, .error b =>
      if h : a = b then .isTrue (h ▸ rfl) else .isFalse (fun hh => h (Except.error.inj hh))
    | .ok _, .error _ => .isFalse (fun hh => Except.noConfusion hh)
    | .error _, .ok _ => .isFalse (fun hh => Except.noConfusion hh)

/-- Outcome of a `split_media` call: `result` is the returned chunk list or
the raised exception's message, and `created` lists the chunk artifacts the
call materialized on disk before returning or raising. -/
structure SplitOutcome where
  result : Except String (List ChunkWindow)
  created : List ChunkWindow
deriving Repr, DecidableEq

/-- The chunk duration computed on media_utils.py line 159:
`chunk_duration = duration * (chunk_size_mb * 1024 * 1024) / file_size`. -/
def chunkDurationOf (duration chunk_size_mb file_size : ℚ) : ℚ :=
  duration * (chunk_size_mb * 1024 * 1024) / file_size

/-- The list of chunk windows produced by the loop of `split_media`
(media_utils.py lines 160-184): `num_chunks = math.ceil(duration /
chunk_duration)` windows, window `i` starting at `i * chunk_duration` with
duration `chunk_duration`. -/
def plannedWindows (duration chunk_size_mb file_size : ℚ) : List ChunkWindow :=
  (List.range (⌈duration / chunkDurationOf duration chunk_size_mb file_size⌉).toNat).map
    (fun i => ⟨i, (i : ℚ) * chunkDurationOf duration chunk_size_mb file_size,
               chunkDurationOf duration chunk_size_mb file_size⟩)

/-- Shallow embedding of `split_media` (media_utils.py lines 150-187).
`probedDuration` is the value `get_media_duration` returned for the input
path (`none` models the probe failing and returning Python `None`).  The
source's falsy guard `if not duration:` raises for both `None` and `0.0`,
before the chunk-duration division and before any chunk file is created.
A zero `file_size` would raise `ZeroDivisionError` on line 159, also before
any chunk file exists.  The per-window ffmpeg extraction (lines 170-183) is
stream-copying and is not further modelled; each window corresponds
one-to-one to a created temporary chunk file. -/
def split_media (probedDuration : Option ℚ) (file_size : ℚ) (chunk_size_mb : ℚ) :
    SplitOutcome :=
  match probedDuration with
  | none => ⟨.error "Could not determine audio duration", []⟩
  | some duration =>
    if duration = 0 then ⟨.error "Could not determine audio duration", []⟩
    else if file_size = 0 then ⟨.error "ZeroDivisionError: division by zero", []⟩
    else
      let ws := plannedWindows duration chunk_size_mb file_size
      ⟨.ok ws, ws⟩

/- ========================================================================
   Retry wrappers: `retry_on_error` (transcriber_app.py lines 58-74) and the
   duplicated `retry_on_exception` (decorators/decorator.py lines 5-19 and
   random_number_decorator.py lines 8-22)
   ======================================================================== -/

/-- How a call to a retry-wrapped Python function can end: a normal return
of a value, a propagated exception, or the wrapper falling out of its
`while` loop and returning `None`. -/
inductive RetryOutcome (ε α : Type) where
  | ok : α → RetryOutcome ε α
  | err : ε → RetryOutcome ε α
  | noneResult : RetryOutcome ε α
deriving Repr, DecidableEq

/-- Observable trace of one retry-wrapped call: its outcome, how many times
the wrapped operation was invoked, and the list of delays passed to
`time.sleep`, in order. -/
structure RetryTrace (ε α : Type) where
  outcome : RetryOutcome ε α
  calls : Nat
  sleeps : List ℚ
deriving Repr, DecidableEq

/-- The `while retries < max_retries` loop of `retry_on_error`
(transcriber_app.py lines 62-72).  The loop state is represented by
`remaining = max_retries - retries`, so the recursion is structural; the
loop guard `retries < max_retries` is `remaining > 0` and the check
`retries == max_retries` after the increment is `remaining = 1`.
`op k` is the outcome of invocation number `k` (0-based) of the wrapped
function. -/
def retryLoop {ε α : Type} (op : Nat → Except ε α) (delay : ℚ)
    (calls : Nat) (sleeps : List ℚ) : Nat → RetryTrace ε α
  | 0 => ⟨.noneResult, calls, sleeps⟩
  | remaining + 1 =>
    match op calls with
    | .ok a => ⟨.ok a, calls + 1, sleeps⟩
    | .error e =>
      if remaining = 0 then ⟨.err e, calls + 1, sleeps⟩
      else retryLoop op delay (calls + 1) (sleeps ++ [delay]) remaining

/-- Shallow embedding of `retry_on_error(max_retries, delay)` applied to a
fallible operation (transcriber_app.py lines 58-74). -/
def retry_on_error {ε α : Type} (op : Nat → Except ε α) (max_retries : Nat)
    (delay : ℚ) : RetryTrace ε α :=
  retryLoop op delay 0 [] max_retries

/-- The `while attempts < max_attempts` loop of the duplicated
`retry_on_exception` decorator (decorators/decorator.py lines 8-17 and
random_number_decorator.py lines 11-20): unlike `retry_on_error`, it sleeps
after *every* failed attempt (there is no `attempts == max_attempts` check
before the sleep) and never re-raises; falling out of the loop returns
`None` (explicitly in decorators/decorator.py line 17, implicitly in
random_number_decorator.py). -/
def retryExcLoop {ε α : Type} (op : Nat → Except ε α) (wait_time : ℚ)
    (calls : Nat) (sleeps : List ℚ) : Nat → RetryTrace ε α
  | 0 => ⟨.noneResult, calls, sleeps⟩
  | remaining + 1 =>
    match op calls with
    | .ok a => ⟨.ok a, calls + 1, sleeps⟩
    | .error _ => retryExcLoop op wait_time (calls + 1) (sleeps ++ [wait_time]) remaining

/-- Shallow embedding of `retry_on_exception(max_attempts, wait_time)`
applied to a fallible operation. -/
def retry_on_exception {ε α : Type} (op : Nat → Except ε α) (max_attempts : Nat)
    (wait_time : ℚ) : RetryTrace ε α :=
  retryExcLoop op wait_time 0 [] max_attempts

/-- The Python value a call to a `retry_on_exception`-wrapped function
produces, for a wrapped function whose own return type is `Option α`
(Python functions may return `None`): `some v` is a normal return of `v`
(`some none` being a returned `None`), and `none` means an exception
propagated to the caller instead of a return. -/
def pyReturn {ε α : Type} (t : RetryTrace ε (Option α)) : Option (Option α) :=
  match t.outcome with
  | .ok v => some v
  | .noneResult => some none
  | .err _ => none

/- ========================================================================
   transcriber_app.py — the transcription coordinator
   (`transcribe_file` lines 118-152, `transcribe_file_chunk` lines 104-116,
   `transcribe_from_url` lines 154-176)
   ======================================================================== -/

/-- `get_file_size_mb` (media_utils.py lines 213-215):
`os.path.getsize(file_path) / (1024 * 1024)`. -/
def get_file_size_mb (sizeBytes : ℚ) : ℚ :=
  sizeBytes / (1024 * 1024)

/-- `needs_splitting` (media_utils.py lines 217-219):
`get_file_size_mb(file_path) > max_size_mb`. -/
def needs_splitting (sizeBytes : ℚ) (max_size_mb : ℚ) : Bool :=
  decide (max_size_mb < get_file_size_mb sizeBytes)

/-- The Python result of one call to the retry-wrapped
`transcribe_file_chunk` for chunk number `i` (transcriber_app.py lines
104-116, decorated with `retry_on_error(max_retries=3, delay=2)` on line
104).  `attempts i k` is the outcome of the k-th attempt on chunk `i`,
already carrying the `"Chunk transcription failed: "` wrapping that
`transcribe_file_chunk` applies to the remote call's exception.  The
`noneResult` branch would be the wrapper returning `None` after its loop;
it is unreachable for `max_retries = 3` (the wrapper re-raises on the last
attempt), and in Python the caller would then append `None`. -/
def chunkResult (attempts : Nat → Nat → Except String String) (i : Nat) :
    Except String String :=
  match (retry_on_error (attempts i) 3 2).outcome with
  | .ok t => .ok t
  | .err e => .error e
  | .noneResult => .ok "None"

/-- The sequential chunk loop of `transcribe_file` (transcriber_app.py
lines 132-140): chunk `i` is transcribed before chunk `i+1`; the first
failure raises out of the loop, discarding the transcripts accumulated so
far; if every chunk succeeds the texts are returned in chunk index order.
`cr i` is the result of transcribing chunk number `i`. -/
def transcribeChunksGo (cr : Nat → Except String String) :
    List ChunkWindow → Nat → Except String (List String)
  | [], _ => .ok []
  | _ :: rest, i =>
    match cr i with
    | .error e => .error e
    | .ok t =>
      match transcribeChunksGo cr rest (i + 1) with
      | .error e => .error e
      | .ok ts => .ok (t :: ts)

/-- Observable outcome of one `transcribe_file` / `transcribe_from_url`
call: the returned transcript or raised exception, whether the artifact was
split into chunks, the size (in MB) of a payload sent to the remote
transcription capability in a single whole-artifact call (`none` when no
whole-artifact call happens), and whether `cleanup_temp_files` ran from the
`finally` block guarding the chunk transcription loop. -/
structure TFOutcome where
  result : Except String String
  splitPerformed : Bool
  singleCallSizeMB : Option ℚ
  cleanupCalled : Bool
deriving Repr, DecidableEq

/-- Shallow embedding of `transcribe_file` (transcriber_app.py lines
118-152).  `sizeBytes` is `os.path.getsize(file_path)`; `ffmpegAvailable`
is `is_ffmpeg_available()`; `probedDuration` is what `get_media_duration`
reports inside `split_media`.  The whole body is wrapped in
`try/except` re-raising `Exception(f"Transcription failed: {e}")`; the
chunk loop sits in a `try/finally` whose `finally` calls
`cleanup_temp_files(chunks)` on every exit path. -/
def transcribe_file (sizeBytes : ℚ) (ffmpegAvailable : Bool)
    (probedDuration : Option ℚ)
    (attempts : Nat → Nat → Except String String) : TFOutcome :=
  if needs_splitting sizeBytes 25 then
    if ffmpegAvailable = false then
      ⟨.error "Transcription failed: FFmpeg is required for splitting large files but is not available",
       false, none, false⟩
    else
      match (split_media probedDuration sizeBytes 20).result with
      | .error msg => ⟨.error ("Transcription failed: " ++ msg), false, none, false⟩
      | .ok chunks =>
        match transcribeChunksGo (chunkResult attempts) chunks 0 with
        | .ok ts => ⟨.ok (String.intercalate " " ts), true, none, true⟩
        | .error e => ⟨.error ("Transcription failed: " ++ e), true, none, true⟩
  else
    match chunkResult attempts 0 with
    | .ok t => ⟨.ok t, false, some (get_file_size_mb sizeBytes), false⟩
    | .error e => ⟨.error ("Transcription failed: " ++ e), false, some (get_file_size_mb sizeBytes), false⟩

/-- Shallow embedding of `transcribe_from_url` (transcriber_app.py lines
154-176), decorated with `retry_on_error(max_retries=3, delay=2)`: each
attempt downloads the URL and sends the entire payload to the remote
transcription capability in a single call — there is no size check and no
splitting on this path.  `attempts k` is the outcome of attempt `k`
(carrying the `"URL transcription failed: "` wrapping of line 176). -/
def transcribe_from_url (sizeBytes : ℚ) (attempts : Nat → Except String String) :
    TFOutcome :=
  match (retry_on_error attempts 3 2).outcome with
  | .ok t => ⟨.ok t, false, some (get_file_size_mb sizeBytes), false⟩
  | .err e => ⟨.error e, false, some (get_file_size_mb sizeBytes), false⟩
  | .noneResult => ⟨.ok "None", false, some (get_file_size_mb sizeBytes), false⟩

/-- The source of a submitted transcription job, as dispatched by
`process_transcription_async` (transcriber_app.py lines 185-190) and by the
enhanced-URL worker (lines 600-613, which downloads to a local file and
then calls `transcribe_file` on it). -/
inductive JobSource where
  | file (sizeBytes : ℚ) (ffmpegAvailable : Bool) (probedDuration : Option ℚ)
  | url (sizeBytes : ℚ)
  | enhancedUrl (sizeBytes : ℚ) (ffmpegAvailable : Bool) (probedDuration : Option ℚ)

/-- The transcription step a submitted job runs, by source kind: uploaded
files and enhanced-URL downloads go through `transcribe_file`; plain URL
jobs go through `transcribe_from_url`. -/
def dispatchTranscription (src : JobSource)
    (attempts : Nat → Nat → Except String String) : TFOutcome :=
  match src with
  | .file sizeBytes ff pd => transcribe_file sizeBytes ff pd attempts
  | .url sizeBytes => transcribe_from_url sizeBytes (attempts 0)
  | .enhancedUrl sizeBytes ff pd => transcribe_file sizeBytes ff pd attempts

/- ========================================================================
   transcriber_app.py — job registry and session store
   (`user_sessions` line 55, `upload_file` lines 227-311,
   `process_transcription_async` lines 178-220, `get_job_status` lines
   357-371, `reset_session` lines 418-442)
   ======================================================================== -/

/-- The fields of a job record relevant to the lifecycle claims: the
`job_id`, `status`, `error` and `transcription` keys of the dictionaries
stored in `processing_jobs` and `transcriptions`. -/
structure JobData where
  job_id : String
  status : String
  error : Option String := none
  transcription : Option String := none
deriving Repr, DecidableEq

/-- One session's data: the `transcriptions` list and the `processing_jobs`
dictionary (modelled as an association list preserving insertion order, as
Python dicts do). -/
structure SessionData where
  transcriptions : List JobData
  processing_jobs : List (String × JobData)
deriving Repr, DecidableEq

/-- The fresh session value `{'transcriptions': [], 'processing_jobs': {}}`
(transcriber_app.py lines 97-100 and 434-437). -/
def emptySessionData : SessionData := ⟨[], []⟩

/-- Python dict assignment `d[k] = v` on an association list. -/
def assocSet : List (String × JobData) → String → JobData → List (String × JobData)
  | [], k, v => [(k, v)]
  | (k₁, v₁) :: rest, k, v =>
    if k₁ = k then (k, v) :: rest else (k₁, v₁) :: assocSet rest k v

/-- Python dict lookup `d.get(k)` on an association list. -/
def assocGet : List (String × JobData) → String → Option JobData
  | [], _ => none
  | (k₁, v₁) :: rest, k => if k₁ = k then some v₁ else assocGet rest k

/-- Look a job up in a session's `processing_jobs`. -/
def lookupJob (sd : SessionData) (jobId : String) : Option JobData :=
  assocGet sd.processing_jobs jobId

/-- Store a job record in a session's `processing_jobs`. -/
def setJob (sd : SessionData) (jobId : String) (jd : JobData) : SessionData :=
  { sd with processing_jobs := assocSet sd.processing_jobs jobId jd }

/-- The status a job-status query reports for a job, if the job exists. -/
def statusAt (sd : SessionData) (jobId : String) : Option String :=
  (lookupJob sd jobId).map JobData.status

/-- Job creation at submission time (`upload_file`, transcriber_app.py
lines 266-293): the job enters `processing_jobs` with status `'queued'`. -/
def upload_job (sd : SessionData) (jobId : String) : SessionData :=
  setJob sd jobId ⟨jobId, "queued", none, none⟩

/-- The first step of `process_transcription_async` (transcriber_app.py
line 182): the job's status is set to `'processing'` before transcription
starts.  If the job is absent the dict access raises `KeyError`. -/
def processingStage (sd : SessionData) (jobId : String) : SessionData :=
  match lookupJob sd jobId with
  | some jd => setJob sd jobId { jd with status := "processing" }
  | none => sd

/-- The tail of `process_transcription_async` (transcriber_app.py lines
192-220) given the transcription result.  On success it writes the
transcript to `transcriptions/{job_id}.txt` (the returned `Option String`
is the content written, `none` when nothing is persisted), appends the
completed record to `transcriptions` and replaces the `processing_jobs`
entry; on failure the `except` block marks the existing job `'failed'`
with the error message, appending nothing and persisting nothing. -/
def finishJob (sd : SessionData) (jobId : String) (result : Except String String) :
    SessionData × Option String :=
  match result with
  | .ok text =>
    let td : JobData := ⟨jobId, "completed", none, some text⟩
    (⟨sd.transcriptions ++ [td], assocSet sd.processing_jobs jobId td⟩, some text)
  | .error e =>
    match lookupJob sd jobId with
    | some jd => (setJob sd jobId { jd with status := "failed", error := some e }, none)
    | none => (sd, none)

/-- Shallow embedding of `process_transcription_async` (transcriber_app.py
lines 178-220) for a job whose transcription step produced `result`: mark
the job `'processing'`, then record the outcome.  If the job is absent the
`KeyError` of line 182 is caught by the `except` block, which finds no job
to mark failed and leaves the session unchanged. -/
def process_transcription_async (sd : SessionData) (jobId : String)
    (result : Except String String) : SessionData × Option String :=
  match lookupJob sd jobId with
  | none => (sd, none)
  | some _ => finishJob (processingStage sd jobId) jobId result

/-- Shallow embedding of the `get_job_status` route (transcriber_app.py
lines 357-371): a missing job yields the 404 `'Job not found'` response;
`get_or_create_session` supplies an empty session when the id is unknown. -/
def get_job_status (store : String → Option SessionData) (sid jobId : String) :
    Except Nat JobData :=
  match lookupJob ((store sid).getD emptySessionData) jobId with
  | none => .error 404
  | some jd => .ok jd

/-- Shallow embedding of the `reset_session` route (transcriber_app.py
lines 418-442): the session's slot in `user_sessions` is replaced, in one
dict-slot assignment, by a fresh `{'transcriptions': [], 'processing_jobs':
{}}` value; the session key itself stays alive. -/
def reset_session (store : String → Option SessionData) (sid : String) :
    String → Option SessionData :=
  fun s => if s = sid then some emptySessionData else store s

/- ========================================================================
   media_utils.py — `cleanup_temp_files` (lines 189-211)
   ======================================================================== -/

/-- The argument `cleanup_temp_files` accepts: a single path string or a
collection of path strings (the `isinstance` coercions of media_utils.py
lines 192-195). -/
inductive PathArg where
  | single : String → PathArg
  | many : List String → PathArg

/-- The path list the per-path loop iterates over, after the `isinstance`
coercions: a single string becomes a one-element list, a collection is
used as is. -/
def normalizeArg : PathArg → List String
  | .single s => [s]
  | .many l => l

/-- Observable behaviour of one `cleanup_temp_files` call: the paths whose
removal was attempted, in order, and the subset whose handling raised an
exception that the per-path `except` block caught and logged as a warning.
The function is total: no exception escapes to the caller. -/
structure CleanupRun where
  attempted : List String
  failures : List String
deriving Repr, DecidableEq

/-- The `for file_path in file_paths` loop of `cleanup_temp_files`
(media_utils.py lines 197-211).  `oracle p = false` models the removal of
`p` raising an exception somewhere inside the `try` body; the `except`
clause catches it, logs a warning, and the loop continues with the next
path. -/
def cleanupLoop (oracle : String → Bool) : List String → CleanupRun
  | [] => ⟨[], []⟩
  | p :: rest =>
    let r := cleanupLoop oracle rest
    if oracle p then ⟨p :: r.attempted, r.failures⟩
    else ⟨p :: r.attempted, p :: r.failures⟩

/-- Shallow embedding of `cleanup_temp_files` (media_utils.py lines
189-211). -/
def cleanup_temp_files (oracle : String → Bool) (arg : PathArg) : CleanupRun :=
  cleanupLoop oracle (normalizeArg arg)

/-- A filesystem entry for modelling the directory branch of
`cleanup_temp_files`: a file name, or a directory name with its children
in `os.listdir` order. -/
inductive FsEntry where
  | file : String → FsEntry
  | dir : String → List FsEntry → FsEntry

/-- `os.path.join(root, name)`. -/
def pathJoin (root name : String) : String := root ++ "/" ++ name

/-- The `dirs` component of an `os.walk` triple: names of the directory
children, in listing order. -/
def dirNames : List FsEntry → List String
  | [] => []
  | .file _ :: es => dirNames es
  | .dir n _ :: es => n :: dirNames es

/-- The `files` component of an `os.walk` triple: names of the file
children, in listing order. -/
def fileNames : List FsEntry → List String
  | [] => []
  | .file n :: es => n :: fileNames es
  | .dir _ _ :: es => fileNames es

/-- One `(root, dirs, files)` triple yielded by `os.walk`. -/
structure WalkTriple where
  root : String
  dirs : List String
  files : List String
deriving Repr, DecidableEq

/-- The triples `os.walk(root, topdown=False)` yields for a forest of
children rooted at `root`: for each child directory, recursively, that
subtree's triples first; a directory's own triple comes after all triples
of its subtree (bottom-up order). -/
def walkChildren (root : String) : List FsEntry → List WalkTriple
  | [] => []
  | .file _ :: es => walkChildren root es
  | .dir n cs :: es =>
    (walkChildren (pathJoin root n) cs ++
      [⟨pathJoin root n, dirNames cs, fileNames cs⟩]) ++ walkChildren root es

/-- All triples of `os.walk(root, topdown=False)` for a directory at
`root` whose children are `cs`. -/
def walkDir (root : String) (cs : List FsEntry) : List WalkTriple :=
  walkChildren root cs ++ [⟨root, dirNames cs, fileNames cs⟩]

/-- The removal operations the directory branch of `cleanup_temp_files`
performs for one walk triple (media_utils.py lines 203-207): `os.unlink`
on each file of the root, then `os.rmdir` on each subdirectory of the
root (already emptied, since their triples came earlier). -/
def tripleOps (t : WalkTriple) : List String :=
  t.files.map (pathJoin t.root) ++ t.dirs.map (pathJoin t.root)

/-- All removal operations performed while walking a directory's interior,
in execution order. -/
def walkOps (root : String) (cs : List FsEntry) : List String :=
  (walkDir root cs).flatMap tripleOps

/-- The complete removal sequence for a directory path (media_utils.py
lines 202-209): walk the interior bottom-up, then `os.rmdir(file_path)`
on the directory itself. -/
def removeDirOps (root : String) (cs : List FsEntry) : List String :=
  walkOps root cs ++ [root]

/-- What the filesystem reports for a path in the per-path branch of
`cleanup_temp_files` (media_utils.py lines 199-209): a regular file, a
directory with the given children, or neither. -/
inductive PathKind where
  | file
  | dir (children : List FsEntry)
  | missing

/-- The removal operations for one path: `os.unlink` directly for a file,
the bottom-up walk for a directory, nothing for a missing path. -/
def handlePathOps (p : String) : PathKind → List String
  | .file => [p]
  | .dir cs => removeDirOps p cs
  | .missing => []

/-- `q` (with children `qcs`) is a directory lying strictly inside the
directory whose path is `root` and whose children are `cs`: either a
direct child, or inside some child directory. -/
inductive DirWithin : String → List FsEntry → String → List FsEntry → Prop
  | direct (root n : String) (qcs : List FsEntry) (cs : List FsEntry) :
      FsEntry.dir n qcs ∈ cs → DirWithin root cs (pathJoin root n) qcs
  | deeper (root n : String) (cs₁ : List FsEntry) (cs : List FsEntry)
      (q : String) (qcs : List FsEntry) :
      FsEntry.dir n cs₁ ∈ cs → DirWithin (pathJoin root n) cs₁ q qcs →
      DirWithin root cs q qcs

/- ========================================================================
   Theorems — chunk planner (claims C1, C10)
   ======================================================================== -/

theorem chunkDurationOf_pos {D S mb : ℚ} (hD : 0 < D) (hS : 0 < S) (hmb : 0 < mb) :
    0 < chunkDurationOf D mb S :=
  div_pos (mul_pos hD (mul_pos (mul_pos hmb (by norm_num)) (by norm_num))) hS

theorem plannedWindows_length (D S mb : ℚ) :
    (plannedWindows D mb S).length = (⌈D / chunkDurationOf D mb S⌉).toNat := by
  simp [plannedWindows]

theorem plannedWindows_get (D S mb : ℚ) (i : Nat)
    (h : i < (plannedWindows D mb S).length) :
    (plannedWindows D mb S)[i] =
      ⟨i, (i : ℚ) * chunkDurationOf D mb S, chunkDurationOf D mb S⟩ := by
  simp [plannedWindows]

theorem plannedWindows_durations (D S mb : ℚ) :
    (plannedWindows D mb S).map ChunkWindow.duration =
      List.replicate (⌈D / chunkDurationOf D mb S⌉).toNat
        (chunkDurationOf D mb S) := by
  unfold plannedWindows
  rw [List.map_map]
  rw [show ((ChunkWindow.duration ∘ fun i : Nat =>
      (⟨i, (i : ℚ) * chunkDurationOf D mb S, chunkDurationOf D mb S⟩ : ChunkWindow)) =
      fun _ : Nat => chunkDurationOf D mb S) from rfl]
  rw [List.map_const', List.length_range]

/-- Claim C1: for every `total_duration D > 0`, `total_byte_size S > 0` and
positive target chunk size (`target_chunk_bytes T = chunk_size_mb * 2^20`),
`split_media` computes `chunk_duration = D * T / S` and returns exactly
`ceil(D / chunk_duration)` windows, window `i` being
`(i * chunk_duration, chunk_duration)` — contiguous, non-overlapping, in
strictly increasing index order starting at 0 — with total nominal duration
at least `D` and within one `chunk_duration` of `D`. -/
theorem C1_chunk_planner (D S mb : ℚ) (hD : 0 < D) (hS : 0 < S) (hmb : 0 < mb) :
    (split_media (some D) S mb).result = .ok (plannedWindows D mb S) ∧
    ((plannedWindows D mb S).length : ℤ) = ⌈D / chunkDurationOf D mb S⌉ ∧
    1 ≤ (plannedWindows D mb S).length ∧
    (∀ i (h : i < (plannedWindows D mb S).length),
      (plannedWindows D mb S)[i] =
        ⟨i, (i : ℚ) * chunkDurationOf D mb S, chunkDurationOf D mb S⟩) ∧
    (∀ i (h : i + 1 < (plannedWindows D mb S).length),
      (plannedWindows D mb S)[i + 1].start =
        (plannedWindows D mb S)[i].start + (plannedWindows D mb S)[i].duration) ∧
    D ≤ ((plannedWindows D mb S).map ChunkWindow.duration).sum ∧
    ((plannedWindows D mb S).map ChunkWindow.duration).sum <
      D + chunkDurationOf D mb S := by
  have hcd : 0 < chunkDurationOf D mb S := chunkDurationOf_pos hD hS hmb
  have hceil : 0 < ⌈D / chunkDurationOf D mb S⌉ :=
    Int.ceil_pos.mpr (div_pos hD hcd)
  have hsum : ((plannedWindows D mb S).map ChunkWindow.duration).sum =
      ((⌈D / chunkDurationOf D mb S⌉ : ℤ) : ℚ) * chunkDurationOf D mb S := by
    rw [plannedWindows_durations, List.sum_replicate, nsmul_eq_mul]
    congr 1
    exact_mod_cast Int.toNat_of_nonneg hceil.le
  refine ⟨?_, ?_, ?_, ?_, ?_, ?_, ?_⟩
  · simp [split_media, hD.ne', hS.ne']
  · rw [plannedWindows_length]
    exact Int.toNat_of_nonneg hceil.le
  · rw [plannedWindows_length]
    omega
  · intro i h
    exact plannedWindows_get D S mb i h
  · intro i h
    have hi : i < (plannedWindows D mb S).length := by omega
    rw [plannedWindows_get D S mb (i + 1) h, plannedWindows_get D S mb i hi]
    push_cast
    ring
  · rw [hsum]
    calc D = D / chunkDurationOf D mb S * chunkDurationOf D mb S :=
          (div_mul_cancel₀ D hcd.ne').symm
      _ ≤ ((⌈D / chunkDurationOf D mb S⌉ : ℤ) : ℚ) * chunkDurationOf D mb S :=
          mul_le_mul_of_nonneg_right (Int.le_ceil _) hcd.le
  · rw [hsum]
    calc ((⌈D / chunkDurationOf D mb S⌉ : ℤ) : ℚ) * chunkDurationOf D mb S
        < (D / chunkDurationOf D mb S + 1) * chunkDurationOf D mb S :=
          mul_lt_mul_of_pos_right (Int.ceil_lt_add_one _) hcd
      _ = D + chunkDurationOf D mb S := by
          rw [add_mul, one_mul, div_mul_cancel₀ D hcd.ne']

/-- Witness for C1 at the concrete input `D = 300`, `S = 30 * 2^20`,
`chunk_size_mb = 20`. -/
theorem C1_chunk_planner_witness :
    (0 : ℚ) < 300 ∧ (0 : ℚ) < 30 * 1024 * 1024 ∧ (0 : ℚ) < 20 ∧
    ((split_media (some 300) (30 * 1024 * 1024) 20).result =
        .ok (plannedWindows 300 20 (30 * 1024 * 1024)) ∧
      ((plannedWindows 300 20 (30 * 1024 * 1024)).length : ℤ) =
        ⌈(300 : ℚ) / chunkDurationOf 300 20 (30 * 1024 * 1024)⌉ ∧
      1 ≤ (plannedWindows 300 20 (30 * 1024 * 1024)).length ∧
      (∀ i (h : i < (plannedWindows 300 20 (30 * 1024 * 1024)).length),
        (plannedWindows 300 20 (30 * 1024 * 1024))[i] =
          ⟨i, (i : ℚ) * chunkDurationOf 300 20 (30 * 1024 * 1024),
            chunkDurationOf 300 20 (30 * 1024 * 1024)⟩) ∧
      (∀ i (h : i + 1 < (plannedWindows 300 20 (30 * 1024 * 1024)).length),
        (plannedWindows 300 20 (30 * 1024 * 1024))[i + 1].start =
          (plannedWindows 300 20 (30 * 1024 * 1024))[i].start +
            (plannedWindows 300 20 (30 * 1024 * 1024))[i].duration) ∧
      (300 : ℚ) ≤
        ((plannedWindows 300 20 (30 * 1024 * 1024)).map ChunkWindow.duration).sum ∧
      ((plannedWindows 300 20 (30 * 1024 * 1024)).map ChunkWindow.duration).sum <
        300 + chunkDurationOf 300 20 (30 * 1024 * 1024)) :=
  ⟨by norm_num, by norm_num, by norm_num,
    C1_chunk_planner 300 (30 * 1024 * 1024) 20 (by norm_num) (by norm_num) (by norm_num)⟩

/-- Claim C10: whenever `get_media_duration` reports `None` or `0.0`,
`split_media` raises `"Could not determine audio duration"` before the
chunk-duration and chunk-count divisions are evaluated and before any chunk
artifact is created (the falsy check treats a reported zero duration
exactly like a probe failure). -/
theorem C10_split_media_falsy_duration_aborts (S T : ℚ) :
    split_media none S T = ⟨.error "Could not determine audio duration", []⟩ ∧
    split_media (some 0) S T = ⟨.error "Could not determine audio duration", []⟩ := by
  exact ⟨rfl, by simp [split_media]⟩

/- ========================================================================
   Theorems — retry wrappers (claims C2, C9)
   ======================================================================== -/

theorem retryLoop_always_fails {ε α : Type} (op : Nat → Except ε α) (e : Nat → ε)
    (hop : ∀ k, op k = .error (e k)) (delay : ℚ) :
    ∀ remaining calls sleeps, 1 ≤ remaining →
      retryLoop op delay calls sleeps remaining =
        ⟨.err (e (calls + remaining - 1)), calls + remaining,
          sleeps ++ List.replicate (remaining - 1) delay⟩ := by
  intro remaining
  induction remaining with
  | zero => intro c s h; omega
  | succ r ih =>
    intro c s _
    simp only [retryLoop, hop]
    by_cases hr : r = 0
    · subst hr
      simp
    · rw [if_neg hr, ih (c + 1) (s ++ [delay]) (by omega)]
      have h1 : c + 1 + r - 1 = c + (r + 1) - 1 := by omega
      have h2 : c + 1 + r = c + (r + 1) := by omega
      have h3 : s ++ [delay] ++ List.replicate (r - 1) delay =
          s ++ List.replicate (r + 1 - 1) delay := by
        rw [List.append_assoc, List.singleton_append, ← List.replicate_succ]
        congr 2
        omega
      rw [h1, h2, h3]

/-- Claim C2: `retry_on_error` with `max_retries = N ≥ 1` applied to an
operation that fails on every invocation invokes the operation exactly `N`
times, sleeps the fixed delay exactly `N - 1` times (the same `delay` every
time — no backoff), and propagates the error of the final attempt; it never
returns the `None` fall-through value. -/
theorem C2_retry_on_error_exhaustion {ε α : Type} (op : Nat → Except ε α)
    (e : Nat → ε) (hop : ∀ k, op k = .error (e k)) (N : Nat) (hN : 1 ≤ N)
    (delay : ℚ) :
    retry_on_error op N delay =
      ⟨.err (e (N - 1)), N, List.replicate (N - 1) delay⟩ := by
  have h := retryLoop_always_fails op e hop delay N 0 [] hN
  simpa [retry_on_error] using h

/-- Witness for C2: an operation failing every time with `"boom"`, retried
with `max_retries = 3`, `delay = 2`. -/
theorem C2_retry_on_error_exhaustion_witness :
    (∀ k : Nat, (fun _ : Nat => (Except.error "boom" : Except String String)) k =
      .error ((fun _ : Nat => "boom") k)) ∧ 1 ≤ 3 ∧
    retry_on_error (fun _ : Nat => (Except.error "boom" : Except String String)) 3 2 =
      ⟨.err "boom", 3, List.replicate 2 2⟩ :=
  ⟨fun _ => rfl, by omega,
    C2_retry_on_error_exhaustion (fun _ => .error "boom") (fun _ => "boom")
      (fun _ => rfl) 3 (by omega) 2⟩

theorem retryExcLoop_always_fails {ε α : Type} (op : Nat → Except ε α)
    (e : Nat → ε) (hop : ∀ k, op k = .error (e k)) (wait_time : ℚ) :
    ∀ remaining calls sleeps,
      retryExcLoop op wait_time calls sleeps remaining =
        ⟨.noneResult, calls + remaining,
          sleeps ++ List.replicate remaining wait_time⟩ := by
  intro remaining
  induction remaining with
  | zero => intro c s; simp [retryExcLoop]
  | succ r ih =>
    intro c s
    simp only [retryExcLoop, hop]
    rw [ih (c + 1) (s ++ [wait_time])]
    have h2 : c + 1 + r = c + (r + 1) := by omega
    have h3 : s ++ [wait_time] ++ List.replicate r wait_time =
        s ++ List.replicate (r + 1) wait_time := by
      rw [List.append_assoc, List.singleton_append, ← List.replicate_succ]
    rw [h2, h3]

/-- Claim C9: the duplicated `retry_on_exception` wrapper, on an operation
failing all `max_attempts = N ≥ 1` attempts, sleeps after every failed
attempt including the last (`N` sleeps, not `N - 1`) and then returns
`None` instead of propagating the last error — so its caller cannot
distinguish retry exhaustion from the wrapped function successfully
returning `None`. -/
theorem C9_retry_on_exception_exhaustion {ε α : Type}
    (op : Nat → Except ε (Option α)) (e : Nat → ε)
    (hop : ∀ k, op k = .error (e k)) (N : Nat) (hN : 1 ≤ N) (wait_time : ℚ) :
    retry_on_exception op N wait_time =
      ⟨.noneResult, N, List.replicate N wait_time⟩ ∧
    pyReturn (retry_on_exception op N wait_time) = some none ∧
    pyReturn (retry_on_exception op N wait_time) =
      pyReturn (retry_on_exception
        (fun _ => (.ok none : Except ε (Option α))) N wait_time) := by
  have h1 := retryExcLoop_always_fails op e hop wait_time N 0 []
  have h2 : retry_on_exception op N wait_time =
      ⟨.noneResult, N, List.replicate N wait_time⟩ := by
    simpa [retry_on_exception] using h1
  refine ⟨h2, by rw [h2]; rfl, ?_⟩
  obtain ⟨m, rfl⟩ : ∃ m, N = m + 1 := ⟨N - 1, by omega⟩
  rw [h2]
  simp [pyReturn, retry_on_exception, retryExcLoop]

/-- Witness for C9: an operation failing every time with `"boom"`, wrapped
with `max_attempts = 3`, `wait_time = 2`. -/
theorem C9_retry_on_exception_exhaustion_witness :
    (∀ k : Nat, (fun _ : Nat => (Except.error "boom" : Except String (Option Nat))) k =
      .error ((fun _ : Nat => "boom") k)) ∧ 1 ≤ 3 ∧
    (retry_on_exception (fun _ : Nat => (Except.error "boom" : Except String (Option Nat))) 3 2 =
        ⟨.noneResult, 3, List.replicate 3 2⟩ ∧
      pyReturn (retry_on_exception (fun _ : Nat =>
        (Except.error "boom" : Except String (Option Nat))) 3 2) = some none ∧
      pyReturn (retry_on_exception (fun _ : Nat =>
        (Except.error "boom" : Except String (Option Nat))) 3 2) =
        pyReturn (retry_on_exception
          (fun _ => (.ok none : Except String (Option Nat))) 3 2)) :=
  ⟨fun _ => rfl, by omega,
    C9_retry_on_exception_exhaustion (fun _ => .error "boom") (fun _ => "boom")
      (fun _ => rfl) 3 (by omega) 2⟩

/- ========================================================================
   Theorems — transcription coordinator (claims C3, C4, C5, C6)
   ======================================================================== -/

theorem transcribeChunksGo_all_ok (cr : Nat → Except String String) :
    ∀ (cs : List ChunkWindow) (i : Nat) (ts : List String),
      cs.length = ts.length →
      (∀ k (h : k < ts.length), cr (i + k) = .ok ts[k]) →
      transcribeChunksGo cr cs i = .ok ts := by
  intro cs
  induction cs with
  | nil =>
    intro i ts hlen _
    cases ts with
    | nil => rfl
    | cons t ts₁ => simp at hlen
  | cons c rest ih =>
    intro i ts hlen hok
    cases ts with
    | nil => simp at hlen
    | cons t ts₁ =>
      have h0 : cr i = .ok t := by simpa using hok 0 (by simp)
      have hrec : transcribeChunksGo cr rest (i + 1) = .ok ts₁ := by
        apply ih (i + 1) ts₁ (by simpa using hlen)
        intro k hk
        have hx := hok (k + 1) (by simpa using Nat.succ_lt_succ hk)
        have hidx : i + (k + 1) = i + 1 + k := by omega
        rw [hidx] at hx
        simpa using hx
      simp [transcribeChunksGo, h0, hrec]

theorem transcribeChunksGo_first_fail (cr : Nat → Except String String) :
    ∀ (cs : List ChunkWindow) (i j : Nat) (e : String),
      j < cs.length → cr (i + j) = .error e →
      (∀ k, k < j → ∃ t, cr (i + k) = .ok t) →
      transcribeChunksGo cr cs i = .error e := by
  intro cs
  induction cs with
  | nil => intro i j e hj _ _; simp at hj
  | cons c rest ih =>
    intro i j e hj hfail hbefore
    cases j with
    | zero =>
      have h0 : cr i = .error e := by simpa using hfail
      simp [transcribeChunksGo, h0]
    | succ j₁ =>
      obtain ⟨t, ht⟩ := hbefore 0 (by omega)
      have ht₀ : cr i = .ok t := by simpa using ht
      have hrec : transcribeChunksGo cr rest (i + 1) = .error e := by
        apply ih (i + 1) j₁ e (by simpa using hj)
        · have hidx : i + 1 + j₁ = i + (j₁ + 1) := by omega
          rw [hidx]
          exact hfail
        · intro k hk
          obtain ⟨u, hu⟩ := hbefore (k + 1) (by omega)
          have hidx : i + 1 + k = i + (k + 1) := by omega
          exact ⟨u, by rw [hidx]; exact hu⟩
      simp [transcribeChunksGo, ht₀, hrec]

theorem lookupJob_setJob (sd : SessionData) (jobId : String) (jd : JobData) :
    lookupJob (setJob sd jobId jd) jobId = some jd := by
  unfold lookupJob setJob
  simp only []
  induction sd.processing_jobs with
  | nil => simp [assocSet, assocGet]
  | cons kv rest ih =>
    obtain ⟨k₁, v₁⟩ := kv
    by_cases h : k₁ = jobId
    · simp [assocSet, assocGet, h]
    · simp [assocSet, assocGet, h, ih]

theorem setJob_transcriptions (sd : SessionData) (jobId : String) (jd : JobData) :
    (setJob sd jobId jd).transcriptions = sd.transcriptions := rfl

/-- Claim C5: in a split job whose chunks, taken in index order, transcribe
to texts `ts`, the final transcript is exactly `" ".join(ts)` in chunk
index order (chunks are transcribed sequentially, in index order, by the
loop embedded in `transcribeChunksGo`). -/
theorem C5_transcripts_joined_in_order (sizeBytes : ℚ) (pd : Option ℚ)
    (attempts : Nat → Nat → Except String String) (cs : List ChunkWindow)
    (ts : List String)
    (hsplit : needs_splitting sizeBytes 25 = true)
    (hchunks : (split_media pd sizeBytes 20).result = .ok cs)
    (hlen : cs.length = ts.length)
    (hok : ∀ k (h : k < ts.length), chunkResult attempts k = .ok ts[k]) :
    (transcribe_file sizeBytes true pd attempts).result =
      .ok (String.intercalate " " ts) := by
  have hgo : transcribeChunksGo (chunkResult attempts) cs 0 = .ok ts := by
    apply transcribeChunksGo_all_ok _ cs 0 ts hlen
    intro k hk
    simpa using hok k hk
  simp [transcribe_file, hsplit, hchunks, hgo]

/-- Claim C3: if some chunk's transcription fails unrecoverably (its
retry-wrapped call exhausts and raises) while all earlier chunks succeeded,
the whole job fails: `transcribe_file` raises rather than returning any
partial transcript, and `process_transcription_async` records the failure
on the job (status `'failed'`, no transcript field), appends nothing to the
session's transcriptions, and persists nothing to disk. -/
theorem C3_chunk_failure_aborts_job (sizeBytes : ℚ) (pd : Option ℚ)
    (attempts : Nat → Nat → Except String String) (cs : List ChunkWindow)
    (j : Nat) (e : String) (sd : SessionData) (jobId : String) (jd : JobData)
    (hsplit : needs_splitting sizeBytes 25 = true)
    (hchunks : (split_media pd sizeBytes 20).result = .ok cs)
    (hj : j < cs.length)
    (hfail : chunkResult attempts j = .error e)
    (hbefore : ∀ k, k < j → ∃ t, chunkResult attempts k = .ok t)
    (hjob : lookupJob sd jobId = some jd)
    (hnotr : jd.transcription = none) :
    (transcribe_file sizeBytes true pd attempts).result =
      .error ("Transcription failed: " ++ e) ∧
    (∀ s, (transcribe_file sizeBytes true pd attempts).result ≠ .ok s) ∧
    (process_transcription_async sd jobId
        (transcribe_file sizeBytes true pd attempts).result).1.transcriptions =
      sd.transcriptions ∧
    (process_transcription_async sd jobId
        (transcribe_file sizeBytes true pd attempts).result).2 = none ∧
    lookupJob (process_transcription_async sd jobId
        (transcribe_file sizeBytes true pd attempts).result).1 jobId =
      some ⟨jd.job_id, "failed", some ("Transcription failed: " ++ e), none⟩ := by
  have hgo : transcribeChunksGo (chunkResult attempts) cs 0 = .error e := by
    apply transcribeChunksGo_first_fail _ cs 0 j e hj (by simpa using hfail)
    intro k hk
    simpa using hbefore k hk
  have hres : (transcribe_file sizeBytes true pd attempts).result =
      .error ("Transcription failed: " ++ e) := by
    simp [transcribe_file, hsplit, hchunks, hgo]
  have hproc : process_transcription_async sd jobId
      (transcribe_file sizeBytes true pd attempts).result =
      (setJob (setJob sd jobId { jd with status := "processing" }) jobId
        ⟨jd.job_id, "failed", some ("Transcription failed: " ++ e), none⟩, none) := by
    rw [hres]
    simp only [process_transcription_async, hjob, processingStage, finishJob,
      lookupJob_setJob]
    rw [hnotr]
  refine ⟨hres, ?_, ?_, ?_, ?_⟩
  · intro s
    rw [hres]
    intro hcontra
    exact Except.noConfusion hcontra
  · rw [hproc]
    rfl
  · rw [hproc]
  · rw [hproc]
    exact lookupJob_setJob _ _ _

theorem needs_splitting_30MB : needs_splitting (30 * 1024 * 1024) 25 = true := by
  simp only [needs_splitting, get_file_size_mb, decide_eq_true_eq]
  norm_num

theorem split_media_30MB :
    (split_media (some 300) (30 * 1024 * 1024) 20).result =
      .ok [⟨0, 0, 200⟩, ⟨1, 200, 200⟩] := by
  have hcd : chunkDurationOf 300 20 (30 * 1024 * 1024) = 200 := by
    norm_num [chunkDurationOf]
  have h1 : (⌈(300 : ℚ) / 200⌉ : ℤ) = 2 := by norm_num [Int.ceil_eq_iff]
  have hpw : plannedWindows 300 20 (30 * 1024 * 1024) =
      [⟨0, 0, 200⟩, ⟨1, 200, 200⟩] := by
    unfold plannedWindows
    rw [hcd, h1, show Int.toNat 2 = 2 from rfl]
    norm_num [List.range_succ]
  simp [split_media, hpw]

theorem needs_splitting_50MB : needs_splitting (50 * 1024 * 1024) 25 = true := by
  simp only [needs_splitting, get_file_size_mb, decide_eq_true_eq]
  norm_num

theorem split_media_50MB :
    (split_media (some 300) (50 * 1024 * 1024) 20).result =
      .ok [⟨0, 0, 120⟩, ⟨1, 120, 120⟩, ⟨2, 240, 120⟩] := by
  have hcd : chunkDurationOf 300 20 (50 * 1024 * 1024) = 120 := by
    norm_num [chunkDurationOf]
  have h1 : (⌈(300 : ℚ) / 120⌉ : ℤ) = 3 := by norm_num [Int.ceil_eq_iff]
  have hpw : plannedWindows 300 20 (50 * 1024 * 1024) =
      [⟨0, 0, 120⟩, ⟨1, 120, 120⟩, ⟨2, 240, 120⟩] := by
    unfold plannedWindows
    rw [hcd, h1, show Int.toNat 3 = 3 from rfl]
    norm_num [List.range_succ]
  simp [split_media, hpw]

/-- Witness for C5 at a concrete 50 MB, 300 s artifact split into three
chunks transcribing to `"a"`, `"b"`, `"c"`. -/
theorem C5_transcripts_joined_in_order_witness :
    needs_splitting (50 * 1024 * 1024) 25 = true ∧
    (split_media (some 300) (50 * 1024 * 1024) 20).result =
      .ok [⟨0, 0, 120⟩, ⟨1, 120, 120⟩, ⟨2, 240, 120⟩] ∧
    ([(⟨0, 0, 120⟩ : ChunkWindow), ⟨1, 120, 120⟩, ⟨2, 240, 120⟩].length =
      ["a", "b", "c"].length) ∧
    (∀ k (h : k < ["a", "b", "c"].length),
      chunkResult (fun i _ => if i = 0 then .ok "a" else if i = 1 then .ok "b" else .ok "c") k =
        .ok ["a", "b", "c"][k]) ∧
    (transcribe_file (50 * 1024 * 1024) true (some 300)
        (fun i _ => if i = 0 then .ok "a" else if i = 1 then .ok "b" else .ok "c")).result =
      .ok (String.intercalate " " ["a", "b", "c"]) :=
  ⟨needs_splitting_50MB, split_media_50MB, rfl, by decide,
    C5_transcripts_joined_in_order (50 * 1024 * 1024) (some 300) _
      [⟨0, 0, 120⟩, ⟨1, 120, 120⟩, ⟨2, 240, 120⟩] ["a", "b", "c"]
      needs_splitting_50MB split_media_50MB rfl (by decide)⟩

/-- Witness for C3 at a concrete 30 MB, 300 s artifact whose second chunk
fails on every retry attempt while the first chunk succeeded. -/
theorem C3_chunk_failure_aborts_job_witness :
    needs_splitting (30 * 1024 * 1024) 25 = true ∧
    (split_media (some 300) (30 * 1024 * 1024) 20).result =
      .ok [⟨0, 0, 200⟩, ⟨1, 200, 200⟩] ∧
    (1 < [(⟨0, 0, 200⟩ : ChunkWindow), ⟨1, 200, 200⟩].length) ∧
    chunkResult (fun i _ => if i = 0 then .ok "hello"
        else .error "Chunk transcription failed: boom") 1 =
      .error "Chunk transcription failed: boom" ∧
    (∀ k, k < 1 → ∃ t,
      chunkResult (fun i _ => if i = 0 then .ok "hello"
        else .error "Chunk transcription failed: boom") k = .ok t) ∧
    lookupJob (upload_job emptySessionData "j1") "j1" =
      some ⟨"j1", "queued", none, none⟩ ∧
    (JobData.transcription ⟨"j1", "queued", none, none⟩ = none) ∧
    ((transcribe_file (30 * 1024 * 1024) true (some 300)
        (fun i _ => if i = 0 then .ok "hello"
          else .error "Chunk transcription failed: boom")).result =
      .error ("Transcription failed: " ++ "Chunk transcription failed: boom") ∧
    (∀ s, (transcribe_file (30 * 1024 * 1024) true (some 300)
        (fun i _ => if i = 0 then .ok "hello"
          else .error "Chunk transcription failed: boom")).result ≠ .ok s) ∧
    (process_transcription_async (upload_job emptySessionData "j1") "j1"
        (transcribe_file (30 * 1024 * 1024) true (some 300)
          (fun i _ => if i = 0 then .ok "hello"
            else .error "Chunk transcription failed: boom")).result).1.transcriptions =
      (upload_job emptySessionData "j1").transcriptions ∧
    (process_transcription_async (upload_job emptySessionData "j1") "j1"
        (transcribe_file (30 * 1024 * 1024) true (some 300)
          (fun i _ => if i = 0 then .ok "hello"
            else .error "Chunk transcription failed: boom")).result).2 = none ∧
    lookupJob (process_transcription_async (upload_job emptySessionData "j1") "j1"
        (transcribe_file (30 * 1024 * 1024) true (some 300)
          (fun i _ => if i = 0 then .ok "hello"
            else .error "Chunk transcription failed: boom")).result).1 "j1" =
      some ⟨JobData.job_id ⟨"j1", "queued", none, none⟩, "failed",
        some ("Transcription failed: " ++ "Chunk transcription failed: boom"), none⟩) :=
  ⟨needs_splitting_30MB, split_media_30MB, by decide, by decide,
    fun k hk => ⟨"hello", by
      have hk0 : k = 0 := by omega
      subst hk0
      rfl⟩,
    rfl, rfl,
    C3_chunk_failure_aborts_job (30 * 1024 * 1024) (some 300) _
      [⟨0, 0, 200⟩, ⟨1, 200, 200⟩] 1 "Chunk transcription failed: boom"
      (upload_job emptySessionData "j1") "j1" ⟨"j1", "queued", none, none⟩
      needs_splitting_30MB split_media_30MB (by decide) (by decide)
      (fun k hk => ⟨"hello", by
        have hk0 : k = 0 := by omega
        subst hk0
        rfl⟩)
      rfl rfl⟩

/-- Claim C4 counterexample: for a 30 MB artifact with a 300 s duration and
a 20 MB target chunk size, the planner's chunk duration is
`300 * 20 / 30 = 200` seconds, not the 150 seconds stated by the claim —
the two windows are `(0, 200)` and `(200, 200)`. -/
theorem C4_scenario_counterexample :
    (split_media (some 300) (30 * 1024 * 1024) 20).result =
      .ok [⟨0, 0, 200⟩, ⟨1, 200, 200⟩] ∧
    chunkDurationOf 300 20 (30 * 1024 * 1024) = 200 ∧
    ((200 : ℚ) = 150 → False) :=
  ⟨split_media_30MB, by norm_num [chunkDurationOf], by norm_num⟩

/-- Claim C4 (amended): the 30 MB / 300 s scenario yields exactly 2 windows
of 200 seconds each (not 150); with chunk texts `"hello"` and `"world"` the
final transcript is `"hello world"` and the job status passes through
`queued`, `processing`, `completed`, with the completed record stored. -/
theorem C4_scenario_amended :
    (split_media (some 300) (30 * 1024 * 1024) 20).result =
      .ok [⟨0, 0, 200⟩, ⟨1, 200, 200⟩] ∧
    (transcribe_file (30 * 1024 * 1024) true (some 300)
        (fun i _ => if i = 0 then .ok "hello" else .ok "world")).result =
      .ok "hello world" ∧
    statusAt (upload_job emptySessionData "job1") "job1" = some "queued" ∧
    statusAt (processingStage (upload_job emptySessionData "job1") "job1") "job1" =
      some "processing" ∧
    statusAt (process_transcription_async (upload_job emptySessionData "job1")
        "job1" (.ok "hello world")).1 "job1" = some "completed" ∧
    (process_transcription_async (upload_job emptySessionData "job1") "job1"
        (.ok "hello world")).1.transcriptions =
      [⟨"job1", "completed", none, some "hello world"⟩] := by
  refine ⟨split_media_30MB, ?_, rfl, rfl, rfl, rfl⟩
  have hgo : transcribeChunksGo
      (chunkResult (fun i _ => if i = 0 then .ok "hello" else .ok "world"))
      [⟨0, 0, 200⟩, ⟨1, 200, 200⟩] 0 = .ok ["hello", "world"] := rfl
  simp [transcribe_file, needs_splitting_30MB, split_media_30MB, hgo]
  rfl

/-- Claim C6 counterexample: a plain URL job (`/api/transcribe-url` →
`transcribe_from_url`) whose payload is 30 MB — above the 25 MB split
threshold — is sent to the remote transcription capability in a single
whole-payload call and is never split. -/
theorem C6_url_job_not_split_counterexample :
    (dispatchTranscription (.url (30 * 1024 * 1024))
        (fun _ _ => .ok "text")).splitPerformed = false ∧
    (dispatchTranscription (.url (30 * 1024 * 1024))
        (fun _ _ => .ok "text")).singleCallSizeMB =
      some (get_file_size_mb (30 * 1024 * 1024)) ∧
    get_file_size_mb (30 * 1024 * 1024) = 30 ∧ (25 : ℚ) < 30 ∧
    needs_splitting (30 * 1024 * 1024) 25 = true := by
  refine ⟨rfl, rfl, ?_, by norm_num, needs_splitting_30MB⟩
  norm_num [get_file_size_mb]

/-- Claim C6 (amended): only file-backed jobs (uploads, and enhanced-URL
jobs, which download to a local file first) enjoy the splitting guarantee:
when the artifact exceeds the 25 MB threshold, `transcribe_file` never
sends the whole artifact in a single call, and — provided ffmpeg is
available and probing reports a nonzero duration for a nonempty file —
it splits the artifact into chunks before transcription.  Plain URL jobs
(see the counterexample) are sent whole regardless of size. -/
theorem C6_oversized_file_jobs_split (sizeBytes : ℚ) (ff : Bool)
    (pd : Option ℚ) (attempts : Nat → Nat → Except String String)
    (hbig : needs_splitting sizeBytes 25 = true) :
    (dispatchTranscription (.file sizeBytes ff pd) attempts).singleCallSizeMB = none ∧
    (dispatchTranscription (.enhancedUrl sizeBytes ff pd) attempts).singleCallSizeMB = none ∧
    (∀ d : ℚ, ff = true → pd = some d → d ≠ 0 → sizeBytes ≠ 0 →
      (dispatchTranscription (.file sizeBytes ff pd) attempts).splitPerformed = true) := by
  have key : (transcribe_file sizeBytes ff pd attempts).singleCallSizeMB = none := by
    cases ff with
    | false => simp [transcribe_file, hbig]
    | true =>
      rcases hsm : (split_media pd sizeBytes 20).result with msg | chunks
      · simp [transcribe_file, hbig, hsm]
      · rcases hgo : transcribeChunksGo (chunkResult attempts) chunks 0 with er | ts
        · simp [transcribe_file, hbig, hsm, hgo]
        · simp [transcribe_file, hbig, hsm, hgo]
  refine ⟨key, key, ?_⟩
  intro d hff hpd hd hsz
  subst hff
  subst hpd
  have hsm : (split_media (some d) sizeBytes 20).result =
      .ok (plannedWindows d 20 sizeBytes) := by
    simp [split_media, hd, hsz]
  rcases hgo : transcribeChunksGo (chunkResult attempts)
      (plannedWindows d 20 sizeBytes) 0 with er | ts
  · simp [dispatchTranscription, transcribe_file, hbig, hsm, hgo]
  · simp [dispatchTranscription, transcribe_file, hbig, hsm, hgo]

/-- Witness for the amended C6 at a concrete 30 MB upload with ffmpeg
available and a 300 s probed duration. -/
theorem C6_oversized_file_jobs_split_witness :
    needs_splitting (30 * 1024 * 1024) 25 = true ∧
    ((dispatchTranscription (.file (30 * 1024 * 1024) true (some 300))
        (fun _ _ => .ok "text")).singleCallSizeMB = none ∧
    (dispatchTranscription (.enhancedUrl (30 * 1024 * 1024) true (some 300))
        (fun _ _ => .ok "text")).singleCallSizeMB = none ∧
    (∀ d : ℚ, true = true → (some 300 : Option ℚ) = some d → d ≠ 0 →
      (30 * 1024 * 1024 : ℚ) ≠ 0 →
      (dispatchTranscription (.file (30 * 1024 * 1024) true (some 300))
        (fun _ _ => .ok "text")).splitPerformed = true)) :=
  ⟨needs_splitting_30MB,
    C6_oversized_file_jobs_split (30 * 1024 * 1024) true (some 300)
      (fun _ _ => .ok "text") needs_splitting_30MB⟩

/- ========================================================================
   Theorems — job registry / session reset (claim C8)
   ======================================================================== -/

/-- Claim C8: `reset_session` replaces the session's entire job and
transcript collection in one store update: afterwards a status query for
any `job_id` — in particular any job created before the reset — reports
404 Not Found, and the session's transcription list and processing-jobs
map are both empty.  The replacement is a single dict-slot assignment in
the source, so a concurrent reader observes either the whole old value or
the whole new one, never a mix. -/
theorem C8_reset_session_clears_all (store : String → Option SessionData)
    (sid jobId : String) :
    get_job_status (reset_session store sid) sid jobId = .error 404 ∧
    reset_session store sid sid = some emptySessionData ∧
    emptySessionData.transcriptions = [] ∧
    emptySessionData.processing_jobs = [] := by
  refine ⟨?_, by simp [reset_session], rfl, rfl⟩
  simp [get_job_status, reset_session, emptySessionData, lookupJob, assocGet]

/- ========================================================================
   Theorems — cleanup manager (claim C7)
   ======================================================================== -/

theorem cleanupLoop_attempted (oracle : String → Bool) :
    ∀ ps : List String, (cleanupLoop oracle ps).attempted = ps := by
  intro ps
  induction ps with
  | nil => rfl
  | cons p rest ih =>
    by_cases h : oracle p <;> simp [cleanupLoop, h, ih]

theorem mem_dirNames (n : String) (qcs : List FsEntry) :
    ∀ cs : List FsEntry, FsEntry.dir n qcs ∈ cs → n ∈ dirNames cs := by
  intro cs
  induction cs with
  | nil => intro h; simp at h
  | cons e es ih =>
    intro h
    rcases List.mem_cons.mp h with heq | hmem
    · subst heq
      simp [dirNames]
    · cases e with
      | file m => simpa [dirNames] using ih hmem
      | dir m ms =>
        simp only [dirNames]
        exact List.mem_cons_of_mem m (ih hmem)

theorem walkChildren_of_mem (root n : String) (qcs : List FsEntry) :
    ∀ cs : List FsEntry, FsEntry.dir n qcs ∈ cs →
      ∃ X Y, walkChildren root cs = X ++ walkDir (pathJoin root n) qcs ++ Y := by
  intro cs
  induction cs with
  | nil => intro h; simp at h
  | cons e es ih =>
    intro h
    rcases List.mem_cons.mp h with heq | hmem
    · subst heq
      exact ⟨[], walkChildren root es, by simp [walkChildren, walkDir]⟩
    · obtain ⟨X, Y, hXY⟩ := ih hmem
      cases e with
      | file m => exact ⟨X, Y, by simp [walkChildren, hXY]⟩
      | dir m ms =>
        refine ⟨(walkChildren (pathJoin root m) ms ++
          [⟨pathJoin root m, dirNames ms, fileNames ms⟩]) ++ X, Y, ?_⟩
        simp [walkChildren, hXY, List.append_assoc]

theorem walkOps_eq (root : String) (cs : List FsEntry) :
    walkOps root cs = (walkChildren root cs).flatMap tripleOps ++
      ((fileNames cs).map (pathJoin root) ++ (dirNames cs).map (pathJoin root)) := by
  simp [walkOps, walkDir, tripleOps]

theorem walkOps_decomp {root : String} {cs : List FsEntry} {q : String}
    {qcs : List FsEntry} (h : DirWithin root cs q qcs) :
    ∃ A B C, walkOps root cs = A ++ walkOps q qcs ++ B ++ q :: C := by
  induction h with
  | direct root n qcs cs hmem =>
    obtain ⟨X, Y, hXY⟩ := walkChildren_of_mem root n qcs cs hmem
    have hn : pathJoin root n ∈ (dirNames cs).map (pathJoin root) :=
      List.mem_map_of_mem _ (mem_dirNames n qcs cs hmem)
    obtain ⟨U, V, hUV⟩ := List.append_of_mem hn
    refine ⟨X.flatMap tripleOps,
      Y.flatMap tripleOps ++ (fileNames cs).map (pathJoin root) ++ U, V, ?_⟩
    rw [walkOps_eq, hXY, hUV]
    simp only [List.flatMap_append]
    rw [show (walkDir (pathJoin root n) qcs).flatMap tripleOps =
      walkOps (pathJoin root n) qcs from rfl]
    simp [List.append_assoc]
  | deeper root n cs₁ cs q qcs hmem hwithin ih =>
    obtain ⟨A, B, C, hABC⟩ := ih
    obtain ⟨X, Y, hXY⟩ := walkChildren_of_mem root n cs₁ cs hmem
    refine ⟨X.flatMap tripleOps ++ A, B,
      C ++ (Y.flatMap tripleOps ++ (fileNames cs).map (pathJoin root) ++
        (dirNames cs).map (pathJoin root)), ?_⟩
    rw [walkOps_eq, hXY]
    simp only [List.flatMap_append]
    rw [show (walkDir (pathJoin root n) cs₁).flatMap tripleOps =
      A ++ walkOps q qcs ++ B ++ q :: C from hABC]
    simp [List.append_assoc]

theorem removeDirOps_decomp {root : String} {cs : List FsEntry} {q : String}
    {qcs : List FsEntry} (h : DirWithin root cs q qcs) :
    ∃ A B C, removeDirOps root cs = A ++ walkOps q qcs ++ B ++ q :: C := by
  obtain ⟨A, B, C, hABC⟩ := walkOps_decomp h
  refine ⟨A, B, C ++ [root], ?_⟩
  rw [removeDirOps, hABC]
  simp [List.append_assoc]

theorem removeDirOps_getLast (root : String) (cs : List FsEntry) :
    (removeDirOps root cs).getLast? = some root := by
  simp [removeDirOps]

/-- Claim C7: `cleanup_temp_files` accepts a single path or an ordered
collection; it removes files directly (`os.unlink`) and directories
recursively bottom-up (every directory lying inside the cleaned tree is
`rmdir`-ed only after the complete removal sequence for its own interior,
and the top directory is removed last); each per-path failure is caught
and logged, so every path in the collection is attempted even when an
earlier one fails, and no exception reaches the caller (the embedding is a
total function); and it is invoked from the `finally` block on every exit
path — success or failure — of the chunk transcription sequence. -/
theorem C7_cleanup_contract :
    (∀ (oracle : String → Bool) (s : String),
      (cleanup_temp_files oracle (.single s)).attempted = [s]) ∧
    (∀ (oracle : String → Bool) (ps : List String),
      (cleanup_temp_files oracle (.many ps)).attempted = ps) ∧
    (∀ p : String, handlePathOps p .file = [p]) ∧
    (∀ (root : String) (cs : List FsEntry) (q : String) (qcs : List FsEntry),
      DirWithin root cs q qcs →
      ∃ A B C, handlePathOps root (.dir cs) =
        A ++ walkOps q qcs ++ B ++ q :: C) ∧
    (∀ (root : String) (cs : List FsEntry),
      (handlePathOps root (.dir cs)).getLast? = some root) ∧
    (∀ (sizeBytes : ℚ) (pd : Option ℚ)
      (attempts : Nat → Nat → Except String String) (cs : List ChunkWindow),
      needs_splitting sizeBytes 25 = true →
      (split_media pd sizeBytes 20).result = .ok cs →
      (transcribe_file sizeBytes true pd attempts).cleanupCalled = true) := by
  refine ⟨?_, ?_, fun p => rfl, ?_, ?_, ?_⟩
  · intro oracle s
    exact cleanupLoop_attempted oracle [s]
  · intro oracle ps
    exact cleanupLoop_attempted oracle ps
  · intro root cs q qcs h
    exact removeDirOps_decomp h
  · intro root cs
    exact removeDirOps_getLast root cs
  · intro sizeBytes pd attempts cs hbig hok
    rcases hgo : transcribeChunksGo (chunkResult attempts) cs 0 with er | ts
    · simp [transcribe_file, hbig, hok, hgo]
    · simp [transcribe_file, hbig, hok, hgo]

/-- Witness for C7: a two-path collection whose removals both fail, a
one-file test directory, and the 30 MB scenario with every chunk attempt
failing (so the `finally` runs on the failure path). -/
theorem C7_cleanup_contract_witness :
    DirWithin "top" [FsEntry.dir "sub" [FsEntry.file "f"]]
      (pathJoin "top" "sub") [FsEntry.file "f"] ∧
    (cleanup_temp_files (fun _ => false) (.many ["a", "b"])).attempted = ["a", "b"] ∧
    handlePathOps "x" .file = ["x"] ∧
    (∃ A B C, handlePathOps "top" (.dir [FsEntry.dir "sub" [FsEntry.file "f"]]) =
      A ++ walkOps (pathJoin "top" "sub") [FsEntry.file "f"] ++ B ++
        pathJoin "top" "sub" :: C) ∧
    (handlePathOps "top" (.dir [FsEntry.dir "sub" [FsEntry.file "f"]])).getLast? =
      some "top" ∧
    needs_splitting (30 * 1024 * 1024) 25 = true ∧
    (split_media (some 300) (30 * 1024 * 1024) 20).result =
      .ok [⟨0, 0, 200⟩, ⟨1, 200, 200⟩] ∧
    (transcribe_file (30 * 1024 * 1024) true (some 300)
      (fun _ _ => .error "Chunk transcription failed: boom")).cleanupCalled = true := by
  have hdw : DirWithin "top" [FsEntry.dir "sub" [FsEntry.file "f"]]
      (pathJoin "top" "sub") [FsEntry.file "f"] :=
    DirWithin.direct "top" "sub" [FsEntry.file "f"] _ (List.mem_singleton.mpr rfl)
  exact ⟨hdw, C7_cleanup_contract.2.1 (fun _ => false) ["a", "b"],
    C7_cleanup_contract.2.2.1 "x",
    C7_cleanup_contract.2.2.2.1 "top" _ _ _ hdw,
    C7_cleanup_contract.2.2.2.2.1 "top" _,
    needs_splitting_30MB, split_media_30MB,
    C7_cleanup_contract.2.2.2.2.2 (30 * 1024 * 1024) (some 300) _ _
      needs_splitting_30MB split_media_30MB⟩
